import Mathlib

/- Verification of the PDF-to-images conversion tool (src/main.py).

The development shallowly embeds the program's pure logic and its
filesystem-affecting steps as Lean functions over explicit state:

* `sanitize_name` embeds the sanitizer at src/main.py lines 52-58
  (strip, collapse whitespace runs to an underscore, drop disallowed
  characters, fall back when empty).
* `maybe_resize` embeds the resize step at lines 83-89; pixel buffers
  are abstracted to their dimensions, and the truncating division
  `int(h * (mw / w))` is embedded as Nat floor division.
* `iter_pdfs` embeds the input resolver at lines 61-73; a directory is a
  list of entries with a regular-file flag, and Path.glob("*.pdf") is a
  case-sensitive suffix match (POSIX pathlib semantics) while the
  single-file branch lowercases the suffix before comparing.
* `convert_pdf` embeds lines 92-145 as a state-passing function whose
  output directory is a list of items, whose pages carry an `ok` flag
  modelling whether the external rasterize/encode/write calls for that
  page succeed (they may raise), and whose state tracks whether the
  document handle has been opened and closed.
* `make_zip` embeds lines 148-154 over a map from paths to files.
* `main_run` embeds lines 208-256 (output-root creation, quality
  validation, max-width coercion, per-document loop with caught
  failures, exit codes); the resolved input list is a parameter.
-/

namespace PdfTool

/- Whitespace characters recognised by Python's str.strip and the regex
class \s on str patterns (ASCII whitespace plus Unicode whitespace). -/
def isPySpace (c : Char) : Bool :=
  c = '\t' || c = '\n' || c = '\x0b' || c = '\x0c' || c = '\r' || c = ' ' ||
  c = '\x1c' || c = '\x1d' || c = '\x1e' || c = '\x1f' || c = '\x85' || c = '\xa0' ||
  c = '\u1680' || c = '\u2000' || c = '\u2001' || c = '\u2002' || c = '\u2003' ||
  c = '\u2004' || c = '\u2005' || c = '\u2006' || c = '\u2007' || c = '\u2008' ||
  c = '\u2009' || c = '\u200A' || c = '\u2028' || c = '\u2029' || c = '\u202F' ||
  c = '\u205F' || c = '\u3000'

/- The character class [A-Za-z0-9._-] kept by the sanitizer (line 57). -/
def isAllowedChar (c : Char) : Bool :=
  ('A' ≤ c && c ≤ 'Z') || ('a' ≤ c && c ≤ 'z') || ('0' ≤ c && c ≤ '9') ||
  c = '.' || c = '_' || c = '-'

/- Python str.strip(): drop leading and trailing whitespace (line 53). -/
def stripChars (l : List Char) : List Char :=
  ((l.dropWhile isPySpace).reverse.dropWhile isPySpace).reverse

/- re.sub of one underscore for every maximal whitespace run (line 56). -/
def collapseWs : List Char → List Char
  | [] => []
  | [c] => if isPySpace c then ['_'] else [c]
  | c :: d :: cs =>
    if isPySpace c then
      if isPySpace d then collapseWs (d :: cs)
      else '_' :: collapseWs (d :: cs)
    else c :: collapseWs (d :: cs)

/- Lines 52-58 on character lists: strip; if empty return the fallback;
collapse whitespace runs; remove disallowed characters; if the result is
empty return the fallback. -/
def sanitizeList (l fb : List Char) : List Char :=
  if stripChars l = [] then fb
  else if (collapseWs (stripChars l)).filter isAllowedChar = [] then fb
  else (collapseWs (stripChars l)).filter isAllowedChar

/- sanitize_name (src/main.py lines 52-58). -/
def sanitize_name (s fb : String) : String :=
  String.mk (sanitizeList s.data fb.data)

theorem allowed_not_space (c : Char) (h : isAllowedChar c = true) :
    isPySpace c = false := by
  cases hs : isPySpace c with
  | false => rfl
  | true =>
    exfalso
    simp only [isPySpace, Bool.or_eq_true, decide_eq_true_eq, or_assoc] at hs
    rcases hs with h1|h1|h1|h1|h1|h1|h1|h1|h1|h1|h1|h1|h1|h1|h1|h1|h1|h1|h1|h1|h1|h1|h1|h1|h1|h1|h1|h1|h1 <;>
      (subst h1; exact absurd h (by decide))

theorem dropWhile_of_forall_false {α : Type} {p : α → Bool} :
    ∀ l : List α, (∀ c ∈ l, p c = false) → l.dropWhile p = l
  | [], _ => rfl
  | c :: cs, h => by
    simp only [List.dropWhile_cons, h c (by simp)]
    simp

theorem stripChars_of_no_space (l : List Char)
    (h : ∀ c ∈ l, isPySpace c = false) : stripChars l = l := by
  unfold stripChars
  rw [dropWhile_of_forall_false l h]
  rw [dropWhile_of_forall_false l.reverse (fun c hc => h c (List.mem_reverse.mp hc))]
  exact List.reverse_reverse l

theorem collapseWs_of_no_space :
    ∀ l : List Char, (∀ c ∈ l, isPySpace c = false) → collapseWs l = l
  | [], _ => rfl
  | [c], h => by simp [collapseWs, h c (by simp)]
  | c :: d :: cs, h => by
    have hc := h c (by simp)
    have hrest : ∀ x ∈ d :: cs, isPySpace x = false := fun x hx => h x (by simp [hx])
    simp [collapseWs, hc, collapseWs_of_no_space (d :: cs) hrest]

theorem sanitizeList_output (l fb : List Char)
    (hfb : ∀ c ∈ fb, isAllowedChar c = true) (hne : fb ≠ []) :
    (∀ c ∈ sanitizeList l fb, isAllowedChar c = true) ∧ sanitizeList l fb ≠ [] := by
  unfold sanitizeList
  split
  · exact ⟨hfb, hne⟩
  · split
    · exact ⟨hfb, hne⟩
    · next hu =>
      refine ⟨fun c hc => ?_, hu⟩
      exact List.of_mem_filter hc

theorem sanitizeList_fixed (l fb : List Char)
    (hall : ∀ c ∈ l, isAllowedChar c = true) (hne : l ≠ []) :
    sanitizeList l fb = l := by
  have hns : ∀ c ∈ l, isPySpace c = false := fun c hc => allowed_not_space c (hall c hc)
  unfold sanitizeList
  rw [stripChars_of_no_space l hns, collapseWs_of_no_space l hns,
    List.filter_eq_self.mpr (fun c hc => hall c hc)]
  rw [if_neg hne, if_neg hne]

/-- Claim C7: with the default fallback token "page", the sanitizer is
idempotent: sanitizing the result of sanitizing any string returns that
result unchanged. -/
theorem C7_sanitize_idempotent (s : String) :
    sanitize_name (sanitize_name s "page") "page" = sanitize_name s "page" := by
  have hfb : ∀ c ∈ ("page" : String).data, isAllowedChar c = true := by decide
  have hfbne : ("page" : String).data ≠ [] := by decide
  obtain ⟨hall, hne⟩ := sanitizeList_output s.data ("page" : String).data hfb hfbne
  show String.mk (sanitizeList (String.mk (sanitizeList s.data _)).data _) = _
  exact congrArg String.mk (sanitizeList_fixed _ _ hall hne)

/- A rendered page image, abstracted to its pixel dimensions (the pixel
data itself is produced and consumed by the external libraries). -/
structure Img where
  width : Nat
  height : Nat
deriving DecidableEq, Repr

/- maybe_resize (src/main.py lines 83-89): `if not max_width` is Python
truthiness, so both None and 0 leave the image unchanged; otherwise an
image wider than max_width is resized to that width with height
int(height * (max_width / width)), embedded as Nat floor division. -/
def maybe_resize (img : Img) (max_width : Option Nat) : Img :=
  match max_width with
  | none => img
  | some mw =>
    if mw = 0 then img
    else if img.width ≤ mw then img
    else ⟨mw, img.height * mw / img.width⟩

/- The orchestrator's coercion of the configured --max-width (src/main.py
lines 221-223): a zero or negative value becomes None. -/
def effective_max_width (mw : Int) : Option Nat :=
  if mw ≤ 0 then none else some mw.toNat

/-- Claim C2: with a positive configured maximum width, an image wider
than the maximum is resized to exactly that width with height within one
pixel of the exact proportional value, an image at most that wide is
unchanged, and a zero or negative configured maximum disables resizing. -/
theorem C2_resize_bounds (w h : Nat) (mwc : Int) :
    (mwc ≤ 0 → maybe_resize ⟨w, h⟩ (effective_max_width mwc) = ⟨w, h⟩) ∧
    (0 < mwc → w ≤ mwc.toNat →
      maybe_resize ⟨w, h⟩ (effective_max_width mwc) = ⟨w, h⟩) ∧
    (0 < mwc → mwc.toNat < w →
      (maybe_resize ⟨w, h⟩ (effective_max_width mwc)).width = mwc.toNat ∧
      (maybe_resize ⟨w, h⟩ (effective_max_width mwc)).height * w ≤ h * mwc.toNat ∧
      h * mwc.toNat < ((maybe_resize ⟨w, h⟩ (effective_max_width mwc)).height + 1) * w) := by
  refine ⟨fun hle => ?_, fun hpos hwle => ?_, fun hpos hlt => ?_⟩
  · simp [effective_max_width, hle, maybe_resize]
  · have : ¬ mwc ≤ 0 := by omega
    simp [effective_max_width, this, maybe_resize]
    intro hmw0
    omega
  · have hn0 : ¬ mwc ≤ 0 := by omega
    have hmwpos : ¬ mwc.toNat = 0 := by omega
    have hnle : ¬ w ≤ mwc.toNat := by omega
    have hres : maybe_resize ⟨w, h⟩ (effective_max_width mwc) =
        ⟨mwc.toNat, h * mwc.toNat / w⟩ := by
      simp only [effective_max_width, if_neg hn0, maybe_resize, if_neg hmwpos, if_neg hnle]
    rw [hres]
    refine ⟨rfl, Nat.div_mul_le_self (h * mwc.toNat) w, ?_⟩
    have hw : 0 < w := by omega
    have hdm := Nat.div_add_mod (h * mwc.toNat) w
    have hm : (h * mwc.toNat) % w < w := Nat.mod_lt _ hw
    set q := h * mwc.toNat / w
    show h * mwc.toNat < (q + 1) * w
    have hq : (q + 1) * w = w * q + w := by ring
    omega

/-- Witness for C2 at concrete inputs: a 2000x1000 image with configured
maximum 1600 becomes exactly 1600 wide with height within one pixel of
800, and a negative configured maximum leaves a 1200x900 image unchanged. -/
theorem C2_resize_bounds_witness :
    (maybe_resize ⟨2000, 1000⟩ (effective_max_width 1600)).width = 1600 ∧
    (maybe_resize ⟨2000, 1000⟩ (effective_max_width 1600)).height * 2000 ≤ 1000 * 1600 ∧
    1000 * 1600 < ((maybe_resize ⟨2000, 1000⟩ (effective_max_width 1600)).height + 1) * 2000 ∧
    maybe_resize ⟨1200, 900⟩ (effective_max_width (-3)) = ⟨1200, 900⟩ := by
  have h1 := (C2_resize_bounds 2000 1000 1600).2.2 (by decide) (by decide)
  have h2 := (C2_resize_bounds 1200 900 (-3)).1 (by decide)
  simpa using ⟨h1.1, h1.2.1, h1.2.2, h2⟩

/- ConvertOptions (src/main.py lines 42-49). The zoom factor only
parametrizes the external rasterizer and is not inspected by any of the
embedded control flow, so it is omitted; `pfx` is the source's `prefix`
field. -/
structure ConvertOptions where
  quality : Int
  max_width : Option Nat
  pfx : String
  make_zip : Bool
  overwrite : Bool
deriving DecidableEq, Repr

/- One directly-contained entry of the per-document output directory: a
regular file, or a subdirectory with its own (abstracted) contents. -/
inductive Item where
  | file (name : String)
  | dir (name : String) (contents : List String)
deriving DecidableEq, Repr

def Item.isFile : Item → Bool
  | .file _ => true
  | .dir _ _ => false

/- Lines 107-109: `for item in out_dir.glob("*"): if item.is_file():
item.unlink()` — delete the regular files directly inside the directory,
leave every other entry as it is. -/
def clear_existing (items : List Item) : List Item :=
  items.filter (fun i => !i.isFile)

/- One page of an open document. `ok` models whether the external calls
made for this page (get_pixmap / frombytes / resize / save, lines
123-135) all succeed; when false, the first of them raises and the
exception propagates out of the page loop with no file written for this
page. -/
structure Page where
  img : Img
  ok : Bool
deriving DecidableEq, Repr

inductive ConvErr where
  | fileExists
  | emptyDoc
  | pageError
deriving DecidableEq, Repr

inductive ConvOutcome where
  | ok (paths : List String)
  | err (e : ConvErr)
deriving DecidableEq, Repr

/- Post-state of one convert_pdf call: the sanitized output directory
name, whether the output directory exists afterwards, its contents, and
whether the document handle was opened resp. closed. -/
structure ConvState where
  outDirName : String
  dirExistsAfter : Bool
  items : List Item
  docOpened : Bool
  docClosed : Bool
deriving DecidableEq, Repr

structure ConvResult where
  state : ConvState
  outcome : ConvOutcome
deriving DecidableEq, Repr

/- Python's format spec {:03d} on a nonnegative integer: the decimal
digits left-padded with zeros to at least width 3 (line 128). -/
def pad3 (n : Nat) : String :=
  String.mk (List.replicate (3 - (toString n).length) '0' ++ (toString n).data)

/- The output filename for 1-based page index idx (line 128). -/
def out_name (pfx : String) (idx : Nat) : String :=
  pfx ++ "_" ++ pad3 idx ++ ".jpg"

/- The page loop (lines 123-142) starting at 1-based index idx: returns
the filenames written in order, and whether the loop ran to completion
(false when some page's processing raised, ending the loop early). -/
def run_pages (pfx : String) : List Page → Nat → List String × Bool
  | [], _ => ([], true)
  | p :: ps, idx =>
    if p.ok then
      let rest := run_pages pfx ps (idx + 1)
      (out_name pfx idx :: rest.1, rest.2)
    else ([], false)

/- convert_pdf (src/main.py lines 92-145) as a state-passing function.
`dirExists` and `items0` describe out_root/<sanitized stem> before the
call, `pages` the document's pages. There is no try/finally around the
page loop: the document handle is closed only on the explicit
`doc.close()` calls at lines 116 and 144. -/
def convert_pdf (pdfStem : String) (opts : ConvertOptions) (dirExists : Bool)
    (items0 : List Item) (pages : List Page) : ConvResult :=
  let stem := sanitize_name pdfStem "document"
  if dirExists && !opts.overwrite then
    { state := ⟨stem, true, items0, false, false⟩, outcome := .err .fileExists }
  else
    let items1 := if dirExists then clear_existing items0 else []
    if pages.length = 0 then
      { state := ⟨stem, true, items1, true, true⟩, outcome := .err .emptyDoc }
    else
      let res := run_pages (sanitize_name opts.pfx "page") pages 1
      { state := ⟨stem, true, items1 ++ res.1.map Item.file, true, res.2⟩,
        outcome := if res.2 then .ok res.1 else .err .pageError }

theorem range_map_shift (f : Nat → String) (n k : Nat) :
    (List.range (n + 1)).map (fun i => f (k + i)) =
      f k :: (List.range n).map (fun i => f (k + 1 + i)) := by
  rw [List.range_succ_eq_map, List.map_cons, List.map_map]
  refine congrArg₂ _ (by simp) ?_
  refine List.map_congr_left (fun i _ => ?_)
  show f (k + (i + 1)) = f (k + 1 + i)
  rw [Nat.add_succ, Nat.succ_add]

theorem run_pages_all_ok (pfx : String) :
    ∀ (pages : List Page) (k : Nat), (∀ p ∈ pages, p.ok = true) →
      run_pages pfx pages k =
        ((List.range pages.length).map (fun i => out_name pfx (k + i)), true)
  | [], _, _ => by simp [run_pages]
  | p :: ps, k, h => by
    have hp : p.ok = true := h p (by simp)
    have ih := run_pages_all_ok pfx ps (k + 1) (fun q hq => h q (by simp [hq]))
    simp only [run_pages, hp, if_true, ih, List.length_cons]
    rw [range_map_shift (fun i => out_name pfx i) ps.length k]

/-- Claim C1: a successfully processed document with N >= 1 pages yields
exactly N output files, one per page in document order, named
prefix_index.jpg with the 1-based index zero-padded to at least three
digits (pad3 1 = "001", pad3 150 = "150"), and the renderer returns the
full ordered list of the written paths. -/
theorem C1_renderer_outputs (pdfStem : String) (opts : ConvertOptions) (dirExists : Bool)
    (items0 : List Item) (pages : List Page)
    (hN : 1 ≤ pages.length) (hok : ∀ p ∈ pages, p.ok = true)
    (hdir : dirExists = false ∨ opts.overwrite = true) :
    (convert_pdf pdfStem opts dirExists items0 pages).outcome =
      ConvOutcome.ok ((List.range pages.length).map
        (fun i => out_name (sanitize_name opts.pfx "page") (i + 1))) ∧
    ((List.range pages.length).map
        (fun i => out_name (sanitize_name opts.pfx "page") (i + 1))).length = pages.length ∧
    (convert_pdf pdfStem opts dirExists items0 pages).state.items =
      (if dirExists then clear_existing items0 else []) ++
        ((List.range pages.length).map
          (fun i => out_name (sanitize_name opts.pfx "page") (i + 1))).map Item.file ∧
    pad3 1 = "001" ∧ pad3 150 = "150" := by
  have hnd : (dirExists && !opts.overwrite) = false := by
    rcases hdir with h | h <;> simp [h]
  have hne : ¬ pages.length = 0 := by omega
  have hrun := run_pages_all_ok (sanitize_name opts.pfx "page") pages 1 hok
  have hsw : ((List.range pages.length).map
      (fun i => out_name (sanitize_name opts.pfx "page") (1 + i))) =
      ((List.range pages.length).map
        (fun i => out_name (sanitize_name opts.pfx "page") (i + 1))) :=
    List.map_congr_left (fun i _ => by rw [Nat.add_comm])
  rw [hsw] at hrun
  refine ⟨?_, by simp, ?_, rfl, rfl⟩
  · simp [convert_pdf, hnd, hne, hrun]
  · simp [convert_pdf, hnd, hne, hrun]

/-- Witness for C1: a two-page document rendered into a fresh directory
produces exactly the files page_001.jpg and page_002.jpg, in page order. -/
theorem C1_renderer_outputs_witness :
    (convert_pdf "doc" ⟨65, some 1600, "page", false, false⟩ false []
        [⟨⟨10, 10⟩, true⟩, ⟨⟨20, 20⟩, true⟩]).outcome =
      ConvOutcome.ok ["page_001.jpg", "page_002.jpg"] ∧
    (convert_pdf "doc" ⟨65, some 1600, "page", false, false⟩ false []
        [⟨⟨10, 10⟩, true⟩, ⟨⟨20, 20⟩, true⟩]).state.items =
      [Item.file "page_001.jpg", Item.file "page_002.jpg"] := by
  have h := C1_renderer_outputs "doc" ⟨65, some 1600, "page", false, false⟩ false []
    [⟨⟨10, 10⟩, true⟩, ⟨⟨20, 20⟩, true⟩] (by decide) (by decide) (Or.inl rfl)
  exact ⟨by simpa using h.1, by simpa using h.2.2.1⟩

/-- Claim C3: when the computed output directory already exists, a run
without the overwrite option fails with the output-already-exists error
and leaves the directory contents completely untouched, while a run with
the overwrite option deletes exactly the regular files directly inside it
before writing, leaving subdirectories and their contents intact. -/
theorem C3_collision_policy (pdfStem : String) (opts : ConvertOptions)
    (items0 : List Item) (pages : List Page) :
    (opts.overwrite = false →
      (convert_pdf pdfStem opts true items0 pages).outcome =
        ConvOutcome.err ConvErr.fileExists ∧
      (convert_pdf pdfStem opts true items0 pages).state.items = items0) ∧
    (opts.overwrite = true →
      ∃ written : List String,
        (convert_pdf pdfStem opts true items0 pages).state.items =
          items0.filter (fun i => !i.isFile) ++ written.map Item.file) := by
  constructor
  · intro h
    constructor <;> simp [convert_pdf, h]
  · intro h
    by_cases hp : pages.length = 0
    · exact ⟨[], by simp [convert_pdf, h, hp, clear_existing]⟩
    · exact ⟨(run_pages (sanitize_name opts.pfx "page") pages 1).1,
        by simp [convert_pdf, h, hp, clear_existing]⟩

/-- Witness for C3: with overwrite disabled, an existing output directory
holding one file and one subdirectory causes the fileExists error and its
contents are unchanged; with overwrite enabled the file is cleared while
the subdirectory and its contents survive. -/
theorem C3_collision_policy_witness :
    ((convert_pdf "doc" ⟨65, some 1600, "page", false, false⟩ true
        [Item.file "old.jpg", Item.dir "sub" ["keep.txt"]] [⟨⟨10, 10⟩, true⟩]).outcome =
      ConvOutcome.err ConvErr.fileExists ∧
     (convert_pdf "doc" ⟨65, some 1600, "page", false, false⟩ true
        [Item.file "old.jpg", Item.dir "sub" ["keep.txt"]] [⟨⟨10, 10⟩, true⟩]).state.items =
      [Item.file "old.jpg", Item.dir "sub" ["keep.txt"]]) ∧
    (∃ written : List String,
      (convert_pdf "doc" ⟨65, some 1600, "page", false, true⟩ true
        [Item.file "old.jpg", Item.dir "sub" ["keep.txt"]] [⟨⟨10, 10⟩, true⟩]).state.items =
      [Item.dir "sub" ["keep.txt"]] ++ written.map Item.file) := by
  constructor
  · exact (C3_collision_policy "doc" ⟨65, some 1600, "page", false, false⟩
      [Item.file "old.jpg", Item.dir "sub" ["keep.txt"]] [⟨⟨10, 10⟩, true⟩]).1 rfl
  · have h := (C3_collision_policy "doc" ⟨65, some 1600, "page", false, true⟩
      [Item.file "old.jpg", Item.dir "sub" ["keep.txt"]] [⟨⟨10, 10⟩, true⟩]).2 rfl
    simpa using h

/-- Claim C6: provided the directory-collision check passes, a zero-page
document makes the renderer fail with the empty-document error, write no
output image files, open and then close the document handle before
raising, and leave the (possibly newly created) output directory in
place. -/
theorem C6_empty_document (pdfStem : String) (opts : ConvertOptions) (dirExists : Bool)
    (items0 : List Item) (hdir : dirExists = false ∨ opts.overwrite = true) :
    (convert_pdf pdfStem opts dirExists items0 []).outcome =
      ConvOutcome.err ConvErr.emptyDoc ∧
    (convert_pdf pdfStem opts dirExists items0 []).state.items =
      (if dirExists then clear_existing items0 else []) ∧
    (convert_pdf pdfStem opts dirExists items0 []).state.docOpened = true ∧
    (convert_pdf pdfStem opts dirExists items0 []).state.docClosed = true ∧
    (convert_pdf pdfStem opts dirExists items0 []).state.dirExistsAfter = true := by
  have hnd : (dirExists && !opts.overwrite) = false := by
    rcases hdir with h | h <;> simp [h]
  refine ⟨?_, ?_, ?_, ?_, ?_⟩ <;> simp [convert_pdf, hnd]

/-- Witness for C6: converting a zero-page document into a fresh output
directory fails with the empty-document error, writes nothing, and closes
the handle. -/
theorem C6_empty_document_witness :
    (convert_pdf "doc" ⟨65, some 1600, "page", false, false⟩ false [] []).outcome =
      ConvOutcome.err ConvErr.emptyDoc ∧
    (convert_pdf "doc" ⟨65, some 1600, "page", false, false⟩ false [] []).state.items = [] ∧
    (convert_pdf "doc" ⟨65, some 1600, "page", false, false⟩ false [] []).state.docClosed
      = true := by
  have h := C6_empty_document "doc" ⟨65, some 1600, "page", false, false⟩ false []
    (Or.inl rfl)
  exact ⟨h.1, by simpa using h.2.1, h.2.2.2.1⟩

/-- Amended claim C9: the document handle is closed before the renderer
returns normally and before it raises the empty-document error, but when
an exception is raised while processing a page the renderer propagates it
without closing the handle; in the directory-collision failure no handle
is ever opened. -/
theorem C9_handle_release (pdfStem : String) (opts : ConvertOptions) (dirExists : Bool)
    (items0 : List Item) (pages : List Page) :
    (∀ names, (convert_pdf pdfStem opts dirExists items0 pages).outcome =
        ConvOutcome.ok names →
      (convert_pdf pdfStem opts dirExists items0 pages).state.docClosed = true) ∧
    ((convert_pdf pdfStem opts dirExists items0 pages).outcome =
        ConvOutcome.err ConvErr.emptyDoc →
      (convert_pdf pdfStem opts dirExists items0 pages).state.docClosed = true) ∧
    ((convert_pdf pdfStem opts dirExists items0 pages).outcome =
        ConvOutcome.err ConvErr.pageError →
      (convert_pdf pdfStem opts dirExists items0 pages).state.docOpened = true ∧
      (convert_pdf pdfStem opts dirExists items0 pages).state.docClosed = false) ∧
    ((convert_pdf pdfStem opts dirExists items0 pages).outcome =
        ConvOutcome.err ConvErr.fileExists →
      (convert_pdf pdfStem opts dirExists items0 pages).state.docOpened = false) := by
  by_cases h1 : (dirExists && !opts.overwrite) = true
  · refine ⟨?_, ?_, ?_, ?_⟩ <;> simp [convert_pdf, h1]
  · by_cases h2 : pages.length = 0
    · refine ⟨?_, ?_, ?_, ?_⟩ <;> simp [convert_pdf, h1, h2]
    · by_cases h3 : (run_pages (sanitize_name opts.pfx "page") pages 1).2 = true
      · refine ⟨?_, ?_, ?_, ?_⟩ <;> simp [convert_pdf, h1, h2, h3]
      · rw [Bool.not_eq_true] at h3
        refine ⟨?_, ?_, ?_, ?_⟩ <;> simp [convert_pdf, h1, h2, h3]

/-- Witness for the amended C9: the zero-page failure closes the handle. -/
theorem C9_handle_release_witness :
    (convert_pdf "doc" ⟨65, some 1600, "page", false, false⟩ false [] []).state.docClosed
      = true :=
  (C9_handle_release "doc" ⟨65, some 1600, "page", false, false⟩ false [] []).2.1 rfl

/-- Counterexample to claim C9 as stated: a one-page document whose page
processing raises leaves the renderer with the document handle opened but
not closed when control leaves convert_pdf. -/
theorem C9_counterexample :
    (convert_pdf "doc" ⟨65, some 1600, "page", false, false⟩ false []
        [⟨⟨10, 10⟩, false⟩]).state.docOpened = true ∧
    (convert_pdf "doc" ⟨65, some 1600, "page", false, false⟩ false []
        [⟨⟨10, 10⟩, false⟩]).state.docClosed = false ∧
    (convert_pdf "doc" ⟨65, some 1600, "page", false, false⟩ false []
        [⟨⟨10, 10⟩, false⟩]).outcome = ConvOutcome.err ConvErr.pageError :=
  ⟨rfl, rfl, rfl⟩

/- A file on disk as seen by the archiver: either an ordinary file or a
zip archive with its ordered entry names. -/
inductive FsFile where
  | plain
  | zip (entries : List String)
deriving DecidableEq, Repr

/- make_zip (src/main.py lines 148-154) over a map from path strings to
files. The files to zip are pathlib paths, represented by their component
lists; `f.name` is the last component. The existing file at zip_path is
unlinked first (lines 149-150), then a fresh archive is written with one
entry per input file, arcname f.name, in input order (lines 151-153). -/
def make_zip (fs : String → Option FsFile) (zipPath : String)
    (files : List (List String)) : String → Option FsFile :=
  let fs1 := fun p => if p = zipPath then none else fs p
  let entries := files.map (fun f => f.getLastD "")
  fun p => if p = zipPath then some (FsFile.zip entries) else fs1 p

/-- Claim C8: the archiver replaces whatever file previously existed at
the archive path with a fresh archive whose entries are exactly the given
files in input order, each entry named by the file's base filename (its
last path component, with no directory components), and it touches no
other path. -/
theorem C8_zip_archive (fs : String → Option FsFile) (zipPath : String)
    (files : List (List String)) :
    make_zip fs zipPath files zipPath =
      some (FsFile.zip (files.map (fun f => f.getLastD ""))) ∧
    (∀ p, p ≠ zipPath → make_zip fs zipPath files p = fs p) ∧
    (files.map (fun f => f.getLastD "")).length = files.length := by
  refine ⟨by simp [make_zip], fun p hp => ?_, by simp⟩
  simp [make_zip, hp]

/-- Witness for C8: archiving two page images over a pre-existing archive
file yields an archive with exactly those two base filenames in order,
and an unrelated path keeps its old content. -/
theorem C8_zip_archive_witness :
    make_zip (fun p => if p = "out/doc/doc_images.zip" then some FsFile.plain else none)
        "out/doc/doc_images.zip"
        [["out", "doc", "page_001.jpg"], ["out", "doc", "page_002.jpg"]]
        "out/doc/doc_images.zip" =
      some (FsFile.zip ["page_001.jpg", "page_002.jpg"]) ∧
    make_zip (fun p => if p = "out/doc/doc_images.zip" then some FsFile.plain else none)
        "out/doc/doc_images.zip"
        [["out", "doc", "page_001.jpg"], ["out", "doc", "page_002.jpg"]]
        "out/doc/page_001.jpg" = none := by
  have h := C8_zip_archive
    (fun p => if p = "out/doc/doc_images.zip" then some FsFile.plain else none)
    "out/doc/doc_images.zip"
    [["out", "doc", "page_001.jpg"], ["out", "doc", "page_002.jpg"]]
  refine ⟨by simpa using h.1, ?_⟩
  have h2 := h.2.1 "out/doc/page_001.jpg" (by decide)
  simpa using h2

/- One resolved input document together with the state of its output
directory, as consumed by the per-document loop of main. -/
structure DocInput where
  stem : String
  dirExists : Bool
  items : List Item
  pages : List Page
deriving DecidableEq, Repr

/- Observable result of one main() invocation: whether the output root
was created, the per-document renderer results in input order, and the
process exit code. -/
structure MainResult where
  outRootCreated : Bool
  docResults : List ConvResult
  exitCode : Int
deriving DecidableEq, Repr

/- main (src/main.py lines 208-256) after argument parsing, with the
resolved input list supplied as `docs`. The output root is created at
line 213, before the quality check at lines 217-219 (exit code 2); an
empty resolved input list exits with code 1 (lines 235-237); otherwise
every document is processed in order, each failure being caught at the
per-document boundary (lines 242-253), and the run exits with code 0
(line 256). -/
def main_run (quality max_width : Int) (pfx : String) (mkzip overwrite : Bool)
    (docs : List DocInput) : MainResult :=
  let outRootCreated := true
  if ¬ (30 ≤ quality ∧ quality ≤ 95) then
    ⟨outRootCreated, [], 2⟩
  else
    let opts : ConvertOptions :=
      ⟨quality, effective_max_width max_width, pfx, mkzip, overwrite⟩
    if docs.isEmpty then ⟨outRootCreated, [], 1⟩
    else
      ⟨outRootCreated,
        docs.map (fun d => convert_pdf d.stem opts d.dirExists d.items d.pages), 0⟩

/-- Claim C4: a quality outside 30..95 exits with code 2 before any
document is processed; an empty resolved input list exits with code 1;
otherwise the run processes every document (its result list has one entry
per input document, failures included) and exits with code 0 regardless
of per-document failures; and the codes 2, 1, 0 are pairwise distinct. -/
theorem C4_exit_codes (quality max_width : Int) (pfx : String) (mkzip overwrite : Bool)
    (docs : List DocInput) :
    (main_run quality max_width pfx mkzip overwrite docs).exitCode =
      (if 30 ≤ quality ∧ quality ≤ 95 then (if docs.isEmpty then 1 else 0) else 2) ∧
    (main_run quality max_width pfx mkzip overwrite docs).docResults =
      (if 30 ≤ quality ∧ quality ≤ 95 then
        (if docs.isEmpty then [] else
          docs.map (fun d => convert_pdf d.stem
            ⟨quality, effective_max_width max_width, pfx, mkzip, overwrite⟩
            d.dirExists d.items d.pages))
      else []) ∧
    ((30 ≤ quality ∧ quality ≤ 95) → docs.isEmpty = false →
      (main_run quality max_width pfx mkzip overwrite docs).docResults.length =
        docs.length) ∧
    ((2 : Int) ≠ 0 ∧ (1 : Int) ≠ 0 ∧ (2 : Int) ≠ 1) := by
  by_cases hq : 30 ≤ quality ∧ quality ≤ 95
  · by_cases hd : docs.isEmpty
    · refine ⟨?_, ?_, ?_, by norm_num⟩ <;> simp [main_run, hq, hd]
    · refine ⟨?_, ?_, ?_, by norm_num⟩ <;> simp [main_run, hq, hd]
  · refine ⟨?_, ?_, ?_, by norm_num⟩ <;> simp [main_run, hq]

/-- Witness for C4: one two-document batch in which the second document
fails at the directory collision still yields two per-document results
and exit code 0; an empty batch yields exit code 1; quality 100 yields
exit code 2. -/
theorem C4_exit_codes_witness :
    (main_run 65 1600 "page" false false
        [⟨"a", false, [], [⟨⟨10, 10⟩, true⟩]⟩,
         ⟨"b", true, [Item.file "old.jpg"], [⟨⟨10, 10⟩, true⟩]⟩]).exitCode = 0 ∧
    (main_run 65 1600 "page" false false
        [⟨"a", false, [], [⟨⟨10, 10⟩, true⟩]⟩,
         ⟨"b", true, [Item.file "old.jpg"], [⟨⟨10, 10⟩, true⟩]⟩]).docResults.length = 2 ∧
    (main_run 65 1600 "page" false false []).exitCode = 1 ∧
    (main_run 100 1600 "page" false false []).exitCode = 2 := by
  have h1 := C4_exit_codes 65 1600 "page" false false
    [⟨"a", false, [], [⟨⟨10, 10⟩, true⟩]⟩,
     ⟨"b", true, [Item.file "old.jpg"], [⟨⟨10, 10⟩, true⟩]⟩]
  have h2 := C4_exit_codes 65 1600 "page" false false ([] : List DocInput)
  have h3 := C4_exit_codes 100 1600 "page" false false ([] : List DocInput)
  refine ⟨by simpa using h1.1, ?_, by simpa using h2.1, by simpa using h3.1⟩
  have := h1.2.2.1 (by norm_num) (by simp)
  simpa using this

/-- Claim C10: main creates the output root directory before validating
the quality setting, so a run with an out-of-range quality still records
the output-root creation, performs no per-document filesystem work, and
exits with the configuration-error code 2. -/
theorem C10_mkdir_before_validation (quality max_width : Int) (pfx : String)
    (mkzip overwrite : Bool) (docs : List DocInput)
    (hq : ¬ (30 ≤ quality ∧ quality ≤ 95)) :
    (main_run quality max_width pfx mkzip overwrite docs).outRootCreated = true ∧
    (main_run quality max_width pfx mkzip overwrite docs).docResults = [] ∧
    (main_run quality max_width pfx mkzip overwrite docs).exitCode = 2 := by
  refine ⟨?_, ?_, ?_⟩ <;> simp [main_run, hq]

/-- Witness for C10: quality 29 is rejected with exit code 2 while the
output root has still been created. -/
theorem C10_mkdir_before_validation_witness :
    (main_run 29 1600 "page" false false
        [⟨"a", false, [], [⟨⟨10, 10⟩, true⟩]⟩]).outRootCreated = true ∧
    (main_run 29 1600 "page" false false
        [⟨"a", false, [], [⟨⟨10, 10⟩, true⟩]⟩]).docResults = [] ∧
    (main_run 29 1600 "page" false false
        [⟨"a", false, [], [⟨⟨10, 10⟩, true⟩]⟩]).exitCode = 2 :=
  C10_mkdir_before_validation 29 1600 "page" false false
    [⟨"a", false, [], [⟨⟨10, 10⟩, true⟩]⟩] (by norm_num)

/- One directory entry seen by the resolver: its filename and whether it
is a regular file. -/
structure DirEntry where
  name : String
  isFile : Bool
deriving DecidableEq, Repr

/- The three shapes an input path can take in iter_pdfs: a regular file,
a directory with its entries, or a nonexistent path. -/
inductive InputPath where
  | file (name : String)
  | dir (entries : List DirEntry)
  | missing
deriving DecidableEq, Repr

/- str.lower() restricted to ASCII letters; no character outside A-Z can
lowercase to one of 'p', 'd', 'f', so this is faithful for comparing a
suffix against ".pdf". -/
def asciiLower (s : String) : String :=
  String.mk (s.data.map (fun c => if 'A' ≤ c && c ≤ 'Z' then Char.ofNat (c.toNat + 32) else c))

/- pathlib's Path.suffix: the part of the final component from its last
dot, except that a dot at position 0 (hidden file) or at the very end
yields the empty suffix. -/
def pySuffix (name : String) : String :=
  match name.data.reverse.findIdx? (fun c => c = '.') with
  | none => ""
  | some j =>
    let i := name.data.length - 1 - j
    if 0 < i ∧ i < name.data.length - 1 then String.mk (name.data.drop i) else ""

/- The test at src/main.py line 63: input_path.suffix.lower() == ".pdf". -/
def pdfSuffixLower (name : String) : Bool :=
  asciiLower (pySuffix name) = ".pdf"

/- pathlib's glob pattern "*.pdf" on a single filename: a case-sensitive
match of the literal suffix ".pdf" (POSIX pathlib globbing does not fold
case), i.e. the last four characters are ".pdf". -/
def globPdfMatch (name : String) : Bool :=
  name.data.reverse.take 4 = ['f', 'd', 'p', '.']

/- iter_pdfs (src/main.py lines 61-73). A regular file is yielded exactly
when its lowercased suffix is ".pdf" (line 63); a directory yields
sorted(input_path.glob("*.pdf")) restricted to regular files (lines
68-70), where sorted() over same-directory paths is an ascending stable
sort by filename; a nonexistent path raises FileNotFoundError (line 73). -/
def iter_pdfs : InputPath → Except String (List String)
  | .file name =>
    if pdfSuffixLower name then .ok [name] else .ok []
  | .dir entries =>
    let globbed := entries.filter (fun e => globPdfMatch e.name)
    let sorted := List.insertionSort (fun a b => a.name ≤ b.name) globbed
    .ok ((sorted.filter (fun e => e.isFile)).map (fun e => e.name))
  | .missing => .error "Input not found"

/- The directory behaviour asserted by the claim, with "extension
matches" read as the same case-insensitive suffix match the claim states
for the single-file branch: the regular files whose lowercased suffix is
".pdf", in sorted order. -/
def claimedDirResult (entries : List DirEntry) : List String :=
  List.insertionSort (fun a b => a ≤ b)
    ((entries.filter (fun e => e.isFile && pdfSuffixLower e.name)).map (fun e => e.name))

/-- Counterexample to claim C5 as stated: a directory containing the
single regular file "A.PDF" makes the resolver yield nothing, because
glob("*.pdf") is case-sensitive, while the claim's case-insensitive
extension match requires yielding that file (as the single-file branch
indeed would). -/
theorem C5_counterexample :
    iter_pdfs (InputPath.dir [⟨"A.PDF", true⟩]) = Except.ok ([] : List String) ∧
    claimedDirResult [⟨"A.PDF", true⟩] = ["A.PDF"] ∧
    iter_pdfs (InputPath.file "A.PDF") = Except.ok ["A.PDF"] ∧
    (["A.PDF"] : List String) ≠ [] := by
  refine ⟨rfl, rfl, ?_, by decide⟩
  have h : pdfSuffixLower "A.PDF" = true := by decide
  simp [iter_pdfs, h]

instance : IsTotal DirEntry (fun a b => a.name ≤ b.name) :=
  ⟨fun a b => le_total a.name b.name⟩

instance : IsTrans DirEntry (fun a b => a.name ≤ b.name) :=
  ⟨fun _ _ _ hab hbc => le_trans hab hbc⟩

/-- Amended claim C5: a regular-file input is yielded exactly when its
suffix lowercased equals ".pdf"; a directory input yields, in ascending
filename order, exactly the names of the regular files directly inside it
that match the case-sensitive glob pattern "*.pdf" (not the
case-insensitive suffix match of the single-file branch); a directory
with no matching entries yields the empty list rather than an error; and
a nonexistent path fails with the not-found error. -/
theorem C5_resolver (p : InputPath) :
    (∀ name, p = InputPath.file name →
      iter_pdfs p = Except.ok (if pdfSuffixLower name then [name] else [])) ∧
    (∀ entries, p = InputPath.dir entries →
      ∃ l, iter_pdfs p = Except.ok l ∧
        l.Pairwise (fun a b => a ≤ b) ∧
        (∀ x, x ∈ l ↔
          ∃ e ∈ entries, e.isFile = true ∧ globPdfMatch e.name = true ∧ e.name = x)) ∧
    (p = InputPath.missing → iter_pdfs p = Except.error "Input not found") ∧
    (∀ entries, p = InputPath.dir entries →
      (∀ e ∈ entries, globPdfMatch e.name = false) →
      iter_pdfs p = Except.ok []) := by
  refine ⟨?_, ?_, ?_, ?_⟩
  · intro name h
    subst h
    cases hc : pdfSuffixLower name <;> simp [iter_pdfs, hc]
  · intro entries h
    subst h
    refine ⟨_, rfl, ?_, ?_⟩
    · have hs := List.sorted_insertionSort (fun a b : DirEntry => a.name ≤ b.name)
        (entries.filter (fun e => globPdfMatch e.name))
      have hf := hs.filter (fun e => e.isFile)
      exact List.pairwise_map.mpr hf
    · intro x
      constructor
      · intro hx
        rcases List.mem_map.mp hx with ⟨e, he, hname⟩
        rcases List.mem_filter.mp he with ⟨hes, hfile⟩
        have hein := (List.perm_insertionSort
          (fun a b : DirEntry => a.name ≤ b.name)
          (entries.filter (fun e => globPdfMatch e.name))).mem_iff.mp hes
        rcases List.mem_filter.mp hein with ⟨hmem, hglob⟩
        exact ⟨e, hmem, hfile, hglob, hname⟩
      · rintro ⟨e, hmem, hfile, hglob, hname⟩
        refine List.mem_map.mpr ⟨e, ?_, hname⟩
        refine List.mem_filter.mpr ⟨?_, hfile⟩
        refine (List.perm_insertionSort
          (fun a b : DirEntry => a.name ≤ b.name)
          (entries.filter (fun e => globPdfMatch e.name))).mem_iff.mpr ?_
        exact List.mem_filter.mpr ⟨hmem, hglob⟩
  · intro h
    subst h
    rfl
  · intro entries h hnone
    subst h
    have hnil : entries.filter (fun e => globPdfMatch e.name) = [] := by
      rw [List.filter_eq_nil_iff]
      intro e he
      simp [hnone e he]
    simp [iter_pdfs, hnil]

/-- Witness for the amended C5: a mixed directory yields exactly its two
lowercase-suffixed regular pdf files; a single file with an uppercase
suffix is yielded by the single-file branch; a missing path errors. -/
theorem C5_resolver_witness :
    iter_pdfs (InputPath.file "Report.PDF") = Except.ok ["Report.PDF"] ∧
    (∃ l, iter_pdfs (InputPath.dir
        [⟨"b.pdf", true⟩, ⟨"a.pdf", true⟩, ⟨"notes.txt", true⟩, ⟨"old.pdf", false⟩]) =
          Except.ok l ∧
      "a.pdf" ∈ l ∧ ¬ "notes.txt" ∈ l) ∧
    iter_pdfs InputPath.missing = Except.error "Input not found" := by
  have h1 := (C5_resolver (InputPath.file "Report.PDF")).1 "Report.PDF" rfl
  have h3 := (C5_resolver InputPath.missing).2.2.1 rfl
  obtain ⟨l, hl, _, hmem⟩ := (C5_resolver (InputPath.dir
      [⟨"b.pdf", true⟩, ⟨"a.pdf", true⟩, ⟨"notes.txt", true⟩, ⟨"old.pdf", false⟩])).2.1
      _ rfl
  refine ⟨by simpa using h1, ⟨l, hl, ?_, ?_⟩, h3⟩
  · exact (hmem "a.pdf").mpr ⟨⟨"a.pdf", true⟩, by decide, rfl, by decide, rfl⟩
  · intro hx
    rcases (hmem "notes.txt").mp hx with ⟨e, hmem', hfile, hglob, hname⟩
    fin_cases hmem' <;>
      first
      | exact absurd hglob (by decide)
      | exact absurd hname (by decide)

end PdfTool
